import Mathlib

/-!
Verification of `owfmodules/avrisp/device_id.py` (AVR device identification
module of the Octowire framework).

The module is embedded shallowly as trace-producing functions: every call to
the transport primitives (SPI transmit / receive, GPIO writes, SPI
configuration) and to the logger is recorded as an `Event`.  A run of
`DeviceID.process` is a function of the three 1-byte SPI responses (the only
inputs read from the device); Python exceptions are modelled with
`Except String`.  The static AVR signature table `avr_device` lives in a
different distribution package (not under this repository's sources) and is
treated as an opaque association list parameter, exactly as the spec treats
it ("an opaque lookup: signature hex string → device metadata").
-/

namespace AvrIsp

set_option maxRecDepth 8192

/-- Log levels of the framework logger used by the module.  `defaultLvl`
stands for the level used when `logger.handle` is called without an explicit
level (line 60 of the source). -/
inductive LogLevel where
  | info
  | success
  | error
  | result
  | defaultLvl
deriving DecidableEq, Repr

/-- Observable actions of the module on its collaborators: the GPIO line,
the SPI interface and the logger. -/
inductive Event where
  | gpioDirectionOutput
  | gpioWrite (status : Nat)
  | spiConfigure (baudrate : Nat)
  | transmit (data : List Nat)
  | receive (size : Nat) (resp : Option Nat)
  | log (level : LogLevel) (msg : String)
deriving DecidableEq, Repr

/-- The three 1-byte responses the device may return to the three
`spi_interface.receive(1)` calls; `none` models an empty/absent response. -/
structure SpiResponses where
  vendorResp : Option Nat
  familyResp : Option Nat
  partResp : Option Nat
deriving DecidableEq, Repr

/-- Metadata of one entry of the static `avr_device` table (the fields the
module reads: lines 53-57 of the source). -/
structure DeviceInfo where
  name : String
  flash_size : Nat
  flash_pagesize : Nat
  eeprom_size : Nat
deriving DecidableEq, Repr

/-- Lowercase hex digit, as produced by `codecs.encode(_, 'hex')`. -/
def hexDigitLower (n : Nat) : Char :=
  if n < 10 then Char.ofNat (48 + n) else Char.ofNat (87 + n)

/-- Uppercase hex digit, as produced by `.hex().upper()`. -/
def hexDigitUpper (n : Nat) : Char :=
  if n < 10 then Char.ofNat (48 + n) else Char.ofNat (55 + n)

/-- Lowercase hex encoding of one byte (two characters). -/
def byteHexLower (b : Nat) : String :=
  String.mk [hexDigitLower (b / 16 % 16), hexDigitLower (b % 16)]

/-- Uppercase hex encoding of one byte (two characters). -/
def byteHexUpper (b : Nat) : String :=
  String.mk [hexDigitUpper (b / 16 % 16), hexDigitUpper (b % 16)]

/-- Lowercase hex encoding of a byte string, as in
`codecs.encode(bytes, 'hex').decode()`. -/
def bytesHexLower (bs : List Nat) : String :=
  String.join (bs.map byteHexLower)

/-- Source line 38-40. -/
def lock_bits_msg : String :=
  "Device Locked (Lock bits have been set). This prevents the memory from being read. To erase the Lock bits, it is necessary to perform a valid \x27Chip Erase\x27."

/-- Source line 43. -/
def locked_or_not_ready_msg : String := "The device is locked or not ready"

/-- Source line 46. -/
def erased_msg : String := "Device Code Erased (or Target Missing)"

/-- Source line 67 (the exception raised by `manage_resp`). -/
def no_resp_msg : String := "Unable to get a response from the device"

/-- Source line 60. -/
def not_found_msg : String := "Device ID not found."

/-- `read_device_id_base_cmd = b'\x30\x00'` (source line 70). -/
def read_device_id_base_cmd : List Nat := [0x30, 0x00]

/-- `enable_mem_access_cmd = b'\xac\x53\x00\x00'` (source line 71). -/
def enable_mem_access_cmd : List Nat := [0xac, 0x53, 0x00, 0x00]

/-- `DeviceID.check_signature` (source lines 36-48): classification of the
three signature bytes; returns the log events it emits and the boolean
result. -/
def check_signature (vendor_id part_family part_number : Nat) :
    List Event × Bool :=
  if vendor_id = 0x00 ∧ part_family = 0x01 ∧ part_number = 0x02 then
    ([Event.log LogLevel.error lock_bits_msg], false)
  else if vendor_id = 0x00 ∨ vendor_id = 0xFF then
    ([Event.log LogLevel.error locked_or_not_ready_msg], false)
  else if part_family = 0xFF ∧ part_number = 0xFF then
    ([Event.log LogLevel.error erased_msg], false)
  else
    ([], true)

/-- `DeviceID.get_device_info` (source lines 50-61): linear scan of the
`avr_device` table; the `for ... else` clause logs "Device ID not found."
and returns `None` when no key matches. -/
def get_device_info (table : List (String × DeviceInfo)) (signature : String) :
    List Event × Option DeviceInfo :=
  match table with
  | [] => ([Event.log LogLevel.defaultLvl not_found_msg], none)
  | (device_signature, device_info) :: rest =>
    if device_signature = signature then
      ([Event.log LogLevel.result ("Device name: " ++ device_info.name),
        Event.log LogLevel.result ("Device flash size: " ++ toString device_info.flash_size),
        Event.log LogLevel.result ("Device flash page size: " ++ toString device_info.flash_pagesize),
        Event.log LogLevel.result ("Device EEPROM size: " ++ toString device_info.eeprom_size)],
       some device_info)
    else
      get_device_info rest signature

/-- `DeviceID.manage_resp` (source lines 63-67): logs the response in
uppercase hex on success, raises when the response is `None`. -/
def manage_resp (msg : String) (resp : Option Nat) :
    List Event × Except String Unit :=
  match resp with
  | some b =>
    ([Event.log LogLevel.success (msg ++ ": " ++ byteHexUpper b)], Except.ok ())
  | none => ([], Except.error no_resp_msg)

/-- `DeviceID.process` (source lines 69-102): the full identification
exchange.  Returns the event trace and either the raised exception or the
returned value (`Option DeviceInfo`). -/
def process (table : List (String × DeviceInfo)) (r : SpiResponses) :
    List Event × Except String (Option DeviceInfo) :=
  let ev0 : List Event :=
    [Event.log LogLevel.info "Enabling Memory Access...",
     Event.gpioWrite 0,
     Event.transmit enable_mem_access_cmd,
     Event.transmit (read_device_id_base_cmd ++ [0x00]),
     Event.receive 1 r.vendorResp]
  match r.vendorResp with
  | none => (ev0 ++ (manage_resp "Vendor ID" none).1, Except.error no_resp_msg)
  | some vendor_id =>
    let ev1 : List Event :=
      ev0 ++ (manage_resp "Vendor ID" (some vendor_id)).1 ++
      [Event.transmit (read_device_id_base_cmd ++ [0x01]),
       Event.receive 1 r.familyResp]
    match r.familyResp with
    | none =>
      (ev1 ++ (manage_resp "Part Family and Flash Size" none).1,
       Except.error no_resp_msg)
    | some part_family =>
      let ev2 : List Event :=
        ev1 ++ (manage_resp "Part Family and Flash Size" (some part_family)).1 ++
        [Event.transmit (read_device_id_base_cmd ++ [0x02]),
         Event.receive 1 r.partResp]
      match r.partResp with
      | none =>
        (ev2 ++ (manage_resp "Part number" none).1, Except.error no_resp_msg)
      | some part_number =>
        let ev3 : List Event :=
          ev2 ++ (manage_resp "Part number" (some part_number)).1 ++
          [Event.gpioWrite 1]
        if (check_signature vendor_id part_family part_number).2 then
          (ev3 ++ (check_signature vendor_id part_family part_number).1 ++
            (get_device_info table
              (bytesHexLower [vendor_id, part_family, part_number])).1,
           Except.ok (get_device_info table
              (bytesHexLower [vendor_id, part_family, part_number])).2)
        else
          (ev3 ++ (check_signature vendor_id part_family part_number).1,
           Except.ok none)

/-- `DeviceID.device_id` (source lines 104-121): GPIO/SPI setup followed by
`process`. -/
def device_id (table : List (String × DeviceInfo)) (spi_baudrate : Nat)
    (r : SpiResponses) : List Event × Except String (Option DeviceInfo) :=
  ([Event.gpioDirectionOutput,
    Event.gpioWrite 1,
    Event.spiConfigure spi_baudrate,
    Event.log LogLevel.info "Reading device ID..."] ++ (process table r).1,
   (process table r).2)

/-- `DeviceID.run` (source lines 123-141): connection guard, the
`try/except` that catches every exception of the identification sequence,
and the `return_value` switch.  `owf_serial` is `false` when the connection
attempt left `self.owf_serial` unset. -/
def run (table : List (String × DeviceInfo)) (owf_serial : Bool)
    (spi_baudrate : Nat) (r : SpiResponses) (return_value : Bool) :
    List Event × Option DeviceInfo :=
  if owf_serial = false then ([], none)
  else
    match (device_id table spi_baudrate r).2 with
    | Except.ok device_info =>
      ((device_id table spi_baudrate r).1,
       if return_value then device_info else none)
    | Except.error err =>
      ((device_id table spi_baudrate r).1 ++ [Event.log LogLevel.error err],
       none)

/-- SPI transmissions and GPIO writes of a trace (the operations that drive
the target). -/
def transportOps (tr : List Event) : List Event :=
  tr.filter fun e =>
    match e with
    | Event.transmit _ => true
    | Event.gpioWrite _ => true
    | _ => false

/-- SPI transmissions, SPI receptions and GPIO writes of a trace, in order:
the protocol exchange seen on the wire. -/
def exchangeOps (tr : List Event) : List Event :=
  tr.filter fun e =>
    match e with
    | Event.transmit _ => true
    | Event.gpioWrite _ => true
    | Event.receive _ _ => true
    | _ => false

/-- The payloads of all SPI transmissions of a trace. -/
def transmittedPayloads (tr : List Event) : List (List Nat) :=
  tr.filterMap fun e =>
    match e with
    | Event.transmit d => some d
    | _ => none

/-- The sequence of values written to the reset GPIO in a trace. -/
def gpioWrites (tr : List Event) : List Nat :=
  tr.filterMap fun e =>
    match e with
    | Event.gpioWrite s => some s
    | _ => none

/-- A demonstration table entry (ATmega328P-like), used only to instantiate
theorems at concrete inputs. -/
def demo_info : DeviceInfo :=
  { name := "Demo AVR", flash_size := 32768, flash_pagesize := 128,
    eeprom_size := 1024 }

/-- The trace of a complete (no missing response) run of `process`, before
classification appends its log events. -/
def mainTrace (v f p : Nat) : List Event :=
  [Event.log LogLevel.info "Enabling Memory Access...",
   Event.gpioWrite 0,
   Event.transmit enable_mem_access_cmd,
   Event.transmit (read_device_id_base_cmd ++ [0x00]),
   Event.receive 1 (some v),
   Event.log LogLevel.success ("Vendor ID: " ++ byteHexUpper v),
   Event.transmit (read_device_id_base_cmd ++ [0x01]),
   Event.receive 1 (some f),
   Event.log LogLevel.success ("Part Family and Flash Size: " ++ byteHexUpper f),
   Event.transmit (read_device_id_base_cmd ++ [0x02]),
   Event.receive 1 (some p),
   Event.log LogLevel.success ("Part number: " ++ byteHexUpper p),
   Event.gpioWrite 1]

theorem process_some_eq (table : List (String × DeviceInfo)) (v f p : Nat) :
    process table ⟨some v, some f, some p⟩ =
      (mainTrace v f p ++ (check_signature v f p).1 ++
        (if (check_signature v f p).2 then
          (get_device_info table (bytesHexLower [v, f, p])).1 else []),
       if (check_signature v f p).2 then
         Except.ok (get_device_info table (bytesHexLower [v, f, p])).2
       else Except.ok none) := by
  by_cases h : (check_signature v f p).2 = true <;>
    simp [process, manage_resp, mainTrace, h]

theorem get_device_info_only_logs (table : List (String × DeviceInfo))
    (signature : String) :
    ∀ e ∈ (get_device_info table signature).1, ∃ l m, e = Event.log l m := by
  induction table with
  | nil =>
    intro e he
    simp only [get_device_info, List.mem_singleton] at he
    exact ⟨_, _, he⟩
  | cons hd tl ih =>
    intro e he
    rcases hd with ⟨k, i⟩
    by_cases hk : k = signature
    · simp [get_device_info, if_pos hk] at he
      rcases he with h | h | h | h <;> exact ⟨_, _, h⟩
    · simp only [get_device_info, if_neg hk] at he
      exact ih e he

theorem check_signature_only_logs (v f p : Nat) :
    ∀ e ∈ (check_signature v f p).1, ∃ l m, e = Event.log l m := by
  intro e he
  unfold check_signature at he
  split at he
  · simp at he; exact ⟨_, _, he⟩
  · split at he
    · simp at he; exact ⟨_, _, he⟩
    · split at he
      · simp at he; exact ⟨_, _, he⟩
      · simp at he

theorem exchangeOps_of_only_logs (tr : List Event)
    (h : ∀ e ∈ tr, ∃ l m, e = Event.log l m) : exchangeOps tr = [] := by
  refine List.filter_eq_nil_iff.mpr ?_
  intro e he
  rcases h e he with ⟨l, m, rfl⟩
  simp

theorem transportOps_of_only_logs (tr : List Event)
    (h : ∀ e ∈ tr, ∃ l m, e = Event.log l m) : transportOps tr = [] := by
  refine List.filter_eq_nil_iff.mpr ?_
  intro e he
  rcases h e he with ⟨l, m, rfl⟩
  simp

theorem transmittedPayloads_of_only_logs (tr : List Event)
    (h : ∀ e ∈ tr, ∃ l m, e = Event.log l m) : transmittedPayloads tr = [] := by
  refine List.filterMap_eq_nil_iff.mpr ?_
  intro e he
  rcases h e he with ⟨l, m, rfl⟩
  rfl

theorem gpioWrites_of_only_logs (tr : List Event)
    (h : ∀ e ∈ tr, ∃ l m, e = Event.log l m) : gpioWrites tr = [] := by
  refine List.filterMap_eq_nil_iff.mpr ?_
  intro e he
  rcases h e he with ⟨l, m, rfl⟩
  rfl

theorem exchangeOps_append (a b : List Event) :
    exchangeOps (a ++ b) = exchangeOps a ++ exchangeOps b := by
  simp [exchangeOps]

theorem transportOps_append (a b : List Event) :
    transportOps (a ++ b) = transportOps a ++ transportOps b := by
  simp [transportOps]

theorem transmittedPayloads_append (a b : List Event) :
    transmittedPayloads (a ++ b) =
      transmittedPayloads a ++ transmittedPayloads b := by
  simp [transmittedPayloads]

theorem gpioWrites_append (a b : List Event) :
    gpioWrites (a ++ b) = gpioWrites a ++ gpioWrites b := by
  simp [gpioWrites]

theorem exchangeOps_check_signature (v f p : Nat) :
    exchangeOps (check_signature v f p).1 = [] :=
  exchangeOps_of_only_logs _ (check_signature_only_logs v f p)

theorem exchangeOps_get_device_info (table : List (String × DeviceInfo))
    (signature : String) :
    exchangeOps (get_device_info table signature).1 = [] :=
  exchangeOps_of_only_logs _ (get_device_info_only_logs table signature)

theorem transportOps_check_signature (v f p : Nat) :
    transportOps (check_signature v f p).1 = [] :=
  transportOps_of_only_logs _ (check_signature_only_logs v f p)

theorem transportOps_get_device_info (table : List (String × DeviceInfo))
    (signature : String) :
    transportOps (get_device_info table signature).1 = [] :=
  transportOps_of_only_logs _ (get_device_info_only_logs table signature)

theorem transmittedPayloads_check_signature (v f p : Nat) :
    transmittedPayloads (check_signature v f p).1 = [] :=
  transmittedPayloads_of_only_logs _ (check_signature_only_logs v f p)

theorem transmittedPayloads_get_device_info
    (table : List (String × DeviceInfo)) (signature : String) :
    transmittedPayloads (get_device_info table signature).1 = [] :=
  transmittedPayloads_of_only_logs _ (get_device_info_only_logs table signature)

theorem gpioWrites_check_signature (v f p : Nat) :
    gpioWrites (check_signature v f p).1 = [] :=
  gpioWrites_of_only_logs _ (check_signature_only_logs v f p)

theorem gpioWrites_get_device_info (table : List (String × DeviceInfo))
    (signature : String) :
    gpioWrites (get_device_info table signature).1 = [] :=
  gpioWrites_of_only_logs _ (get_device_info_only_logs table signature)

theorem process_some_trace (table : List (String × DeviceInfo))
    (v f p : Nat) :
    (process table ⟨some v, some f, some p⟩).1 =
      mainTrace v f p ++ (check_signature v f p).1 ++
        (if (check_signature v f p).2 then
          (get_device_info table (bytesHexLower [v, f, p])).1 else []) := by
  rw [process_some_eq]

theorem exchangeOps_process_some (table : List (String × DeviceInfo))
    (v f p : Nat) :
    exchangeOps (process table ⟨some v, some f, some p⟩).1 =
      [Event.gpioWrite 0,
       Event.transmit enable_mem_access_cmd,
       Event.transmit (read_device_id_base_cmd ++ [0x00]),
       Event.receive 1 (some v),
       Event.transmit (read_device_id_base_cmd ++ [0x01]),
       Event.receive 1 (some f),
       Event.transmit (read_device_id_base_cmd ++ [0x02]),
       Event.receive 1 (some p),
       Event.gpioWrite 1] := by
  have hg : exchangeOps (if (check_signature v f p).2 then
      (get_device_info table (bytesHexLower [v, f, p])).1 else []) = [] := by
    split
    · exact exchangeOps_get_device_info table _
    · rfl
  rw [process_some_trace, exchangeOps_append, exchangeOps_append,
    exchangeOps_check_signature, hg]
  simp [exchangeOps, mainTrace]

theorem transportOps_process_some (table : List (String × DeviceInfo))
    (v f p : Nat) :
    transportOps (process table ⟨some v, some f, some p⟩).1 =
      [Event.gpioWrite 0,
       Event.transmit enable_mem_access_cmd,
       Event.transmit (read_device_id_base_cmd ++ [0x00]),
       Event.transmit (read_device_id_base_cmd ++ [0x01]),
       Event.transmit (read_device_id_base_cmd ++ [0x02]),
       Event.gpioWrite 1] := by
  have hg : transportOps (if (check_signature v f p).2 then
      (get_device_info table (bytesHexLower [v, f, p])).1 else []) = [] := by
    split
    · exact transportOps_get_device_info table _
    · rfl
  rw [process_some_trace, transportOps_append, transportOps_append,
    transportOps_check_signature, hg]
  simp [transportOps, mainTrace]

/-- The protocol exchange exactly as claim C1 words it: reset low, the
4-byte enable command, then three read-signature requests of LENGTH TWO
carrying the indices 0, 1, 2, each immediately followed by a 1-byte
receive, then reset high. -/
def claimC1Exchange (table : List (String × DeviceInfo))
    (r : SpiResponses) : Prop :=
  ∃ c0 c1 c2 : List Nat, ∃ b0 b1 b2 : Nat,
    c0.length = 2 ∧ c1.length = 2 ∧ c2.length = 2 ∧
    c0.getLast? = some 0 ∧ c1.getLast? = some 1 ∧ c2.getLast? = some 2 ∧
    exchangeOps (process table r).1 =
      [Event.gpioWrite 0, Event.transmit enable_mem_access_cmd,
       Event.transmit c0, Event.receive 1 (some b0),
       Event.transmit c1, Event.receive 1 (some b1),
       Event.transmit c2, Event.receive 1 (some b2),
       Event.gpioWrite 1]

/-- C1, counterexample: on a run where all three receives answer, the
read-signature requests transmitted by `process` are 3 bytes long
(`b'\x30\x00'` plus the index byte), so the claimed exchange with 2-byte
requests does not match the code. -/
theorem C1_counterexample_two_byte_requests :
    ¬ claimC1Exchange [] ⟨some 0x1e, some 0x95, some 0x0f⟩ := by
  rintro ⟨c0, c1, c2, b0, b1, b2, hl0, hl1, hl2, hi0, hi1, hi2, hex⟩
  rw [exchangeOps_process_some] at hex
  have hc0 : read_device_id_base_cmd ++ [0x00] = c0 := by
    have h2 := congrArg (fun l => l[2]?) hex
    simpa using h2
  rw [← hc0] at hl0
  simp [read_device_id_base_cmd] at hl0

/-- C1, amended: for every run in which all three SPI receive calls return
a byte, `process` performs exactly this ordered exchange: reset GPIO low,
the 4-byte enable-programming command, then three 3-BYTE read-signature
requests (the 2-byte base command 0x30 0x00 with the index byte 0, 1, 2
appended), each immediately followed by a 1-byte receive, and finally reset
GPIO high. -/
theorem C1_exchange_amended (table : List (String × DeviceInfo))
    (r : SpiResponses) (b0 b1 b2 : Nat) (h0 : r.vendorResp = some b0)
    (h1 : r.familyResp = some b1) (h2 : r.partResp = some b2) :
    exchangeOps (process table r).1 =
      [Event.gpioWrite 0,
       Event.transmit enable_mem_access_cmd,
       Event.transmit (read_device_id_base_cmd ++ [0x00]),
       Event.receive 1 (some b0),
       Event.transmit (read_device_id_base_cmd ++ [0x01]),
       Event.receive 1 (some b1),
       Event.transmit (read_device_id_base_cmd ++ [0x02]),
       Event.receive 1 (some b2),
       Event.gpioWrite 1]
    ∧ enable_mem_access_cmd.length = 4
    ∧ (read_device_id_base_cmd ++ [0x00]).length = 3
    ∧ (read_device_id_base_cmd ++ [0x01]).length = 3
    ∧ (read_device_id_base_cmd ++ [0x02]).length = 3 := by
  rcases r with ⟨rv, rf, rp⟩
  simp only at h0 h1 h2
  subst h0 h1 h2
  exact ⟨exchangeOps_process_some table b0 b1 b2, by decide, by decide,
    by decide, by decide⟩

theorem C1_exchange_amended_witness :
    exchangeOps (process [] ⟨some 0x1e, some 0x95, some 0x0f⟩).1 =
      [Event.gpioWrite 0,
       Event.transmit enable_mem_access_cmd,
       Event.transmit (read_device_id_base_cmd ++ [0x00]),
       Event.receive 1 (some 0x1e),
       Event.transmit (read_device_id_base_cmd ++ [0x01]),
       Event.receive 1 (some 0x95),
       Event.transmit (read_device_id_base_cmd ++ [0x02]),
       Event.receive 1 (some 0x0f),
       Event.gpioWrite 1] :=
  (C1_exchange_amended [] ⟨some 0x1e, some 0x95, some 0x0f⟩ 0x1e 0x95 0x0f
    rfl rfl rfl).1

/-- C6: in any two complete runs (all three receives answer), `process`
issues exactly the same SPI transmissions and GPIO writes in the same
order, whatever the received bytes are. -/
theorem C6_fixed_transport_trace (table : List (String × DeviceInfo))
    (r r2 : SpiResponses)
    (h0 : r.vendorResp.isSome = true) (h1 : r.familyResp.isSome = true)
    (h2 : r.partResp.isSome = true)
    (h3 : r2.vendorResp.isSome = true) (h4 : r2.familyResp.isSome = true)
    (h5 : r2.partResp.isSome = true) :
    transportOps (process table r).1 = transportOps (process table r2).1 := by
  rcases r with ⟨rv, rf, rp⟩
  rcases r2 with ⟨sv, sf, sp⟩
  simp only [Option.isSome_iff_exists] at h0 h1 h2 h3 h4 h5
  obtain ⟨v, rfl⟩ := h0
  obtain ⟨f, rfl⟩ := h1
  obtain ⟨p, rfl⟩ := h2
  obtain ⟨v2, rfl⟩ := h3
  obtain ⟨f2, rfl⟩ := h4
  obtain ⟨p2, rfl⟩ := h5
  rw [transportOps_process_some, transportOps_process_some]

theorem C6_fixed_transport_trace_witness :
    transportOps (process [] ⟨some 0x1e, some 0x95, some 0x0f⟩).1 =
      transportOps (process [] ⟨some 0xff, some 0x00, some 0x07⟩).1 :=
  C6_fixed_transport_trace [] ⟨some 0x1e, some 0x95, some 0x0f⟩
    ⟨some 0xff, some 0x00, some 0x07⟩ rfl rfl rfl rfl rfl rfl

/-- C2: `check_signature` returns `False` exactly when the vendor byte is
0x00 or 0xFF, or the family and part bytes are both 0xFF; in every other
case it returns `True` and `process` proceeds to the table lookup. -/
theorem C2_check_signature_classification (v f p : Nat) :
    ((check_signature v f p).2 = false ↔
      v = 0x00 ∨ v = 0xFF ∨ (f = 0xFF ∧ p = 0xFF))
    ∧ ((check_signature v f p).2 = true →
        ∀ table : List (String × DeviceInfo),
          (process table ⟨some v, some f, some p⟩).2 =
            Except.ok (get_device_info table (bytesHexLower [v, f, p])).2) := by
  constructor
  · unfold check_signature
    split_ifs with h1 h2 h3 <;> simp <;> tauto
  · intro hchk table
    rw [process_some_eq]
    simp [hchk]

theorem C2_check_signature_classification_witness :
    ((check_signature 0x1e 0x95 0x0f).2 = true) ∧
    (process [] ⟨some 0x1e, some 0x95, some 0x0f⟩).2 =
      Except.ok (get_device_info [] (bytesHexLower [0x1e, 0x95, 0x0f])).2 := by
  refine ⟨by decide, ?_⟩
  exact (C2_check_signature_classification 0x1e 0x95 0x0f).2 (by decide) []

/-- C4: the response triple (0x00, 0x01, 0x02) is classified as the explicit
lock-bit condition (not the generic locked-or-not-ready condition),
`check_signature` returns `False` and `process` returns `None`. -/
theorem C4_lock_bits_condition (table : List (String × DeviceInfo)) :
    check_signature 0x00 0x01 0x02 =
      ([Event.log LogLevel.error lock_bits_msg], false)
    ∧ (process table ⟨some 0x00, some 0x01, some 0x02⟩).2 = Except.ok none
    ∧ Event.log LogLevel.error lock_bits_msg ∈
        (process table ⟨some 0x00, some 0x01, some 0x02⟩).1
    ∧ Event.log LogLevel.error locked_or_not_ready_msg ∉
        (process table ⟨some 0x00, some 0x01, some 0x02⟩).1 := by
  have htr : (process table ⟨some 0x00, some 0x01, some 0x02⟩).1 =
      mainTrace 0x00 0x01 0x02 ++ [Event.log LogLevel.error lock_bits_msg] ++ [] := by
    rw [process_some_eq]; rfl
  refine ⟨rfl, ?_, ?_, ?_⟩
  · rw [process_some_eq]; rfl
  · rw [htr]; decide
  · rw [htr]; decide

theorem get_device_info_found (table : List (String × DeviceInfo))
    (sig : String) (info : DeviceInfo) (hmem : (sig, info) ∈ table)
    (hnd : (table.map Prod.fst).Nodup) :
    (get_device_info table sig).2 = some info := by
  induction table with
  | nil => simp at hmem
  | cons hd tl ih =>
    rcases hd with ⟨k, i⟩
    rw [List.map_cons, List.nodup_cons] at hnd
    rcases List.mem_cons.mp hmem with heq | htl
    · cases heq
      simp [get_device_info]
    · by_cases hk : k = sig
      · exfalso
        apply hnd.1
        subst hk
        exact List.mem_map.mpr ⟨(k, info), htl, rfl⟩
      · simp only [get_device_info, if_neg hk]
        exact ih htl hnd.2

theorem get_device_info_not_found (table : List (String × DeviceInfo))
    (sig : String) (h : sig ∉ table.map Prod.fst) :
    (get_device_info table sig).2 = none ∧
    Event.log LogLevel.defaultLvl not_found_msg ∈ (get_device_info table sig).1 := by
  induction table with
  | nil => exact ⟨rfl, by simp [get_device_info]⟩
  | cons hd tl ih =>
    rcases hd with ⟨k, i⟩
    rw [List.map_cons] at h
    simp only [List.mem_cons, not_or] at h
    obtain ⟨h1, h2⟩ := h
    have hk : ¬ k = sig := fun hksig => h1 hksig.symm
    simp only [get_device_info, if_neg hk]
    exact ih h2

/-- C3: when `check_signature` accepts the three bytes, the signature is the
lowercase hex of vendor ++ family ++ part; if the table has an entry with
exactly that key, `process` returns its metadata, and if no entry matches,
`process` logs "Device ID not found." and returns `None`. -/
theorem C3_signature_table_lookup (table : List (String × DeviceInfo))
    (r : SpiResponses) (v f p : Nat) (h0 : r.vendorResp = some v)
    (h1 : r.familyResp = some f) (h2 : r.partResp = some p)
    (hchk : (check_signature v f p).2 = true) :
    (∀ info : DeviceInfo, (bytesHexLower [v, f, p], info) ∈ table →
        (table.map Prod.fst).Nodup →
        (process table r).2 = Except.ok (some info))
    ∧ (bytesHexLower [v, f, p] ∉ table.map Prod.fst →
        (process table r).2 = Except.ok none ∧
        Event.log LogLevel.defaultLvl not_found_msg ∈ (process table r).1) := by
  rcases r with ⟨rv, rf, rp⟩
  simp only at h0 h1 h2
  subst h0 h1 h2
  have hres : (process table ⟨some v, some f, some p⟩).2 =
      Except.ok (get_device_info table (bytesHexLower [v, f, p])).2 := by
    rw [process_some_eq]
    simp [hchk]
  constructor
  · intro info hmem hnd
    rw [hres, get_device_info_found table _ info hmem hnd]
  · intro hnm
    obtain ⟨hval, hmem⟩ := get_device_info_not_found table _ hnm
    refine ⟨by rw [hres, hval], ?_⟩
    rw [process_some_trace]
    simp only [hchk, if_true]
    exact List.mem_append.mpr (Or.inr hmem)

theorem C3_signature_table_lookup_witness :
    (process [(bytesHexLower [0x1e, 0x95, 0x0f], demo_info)]
        ⟨some 0x1e, some 0x95, some 0x0f⟩).2 = Except.ok (some demo_info) :=
  (C3_signature_table_lookup [(bytesHexLower [0x1e, 0x95, 0x0f], demo_info)]
      ⟨some 0x1e, some 0x95, some 0x0f⟩ 0x1e 0x95 0x0f rfl rfl rfl
      (by decide)).1
    demo_info (List.mem_singleton.mpr rfl) (by simp)

theorem check_signature_false_log (v f p : Nat)
    (h : (check_signature v f p).2 = false) :
    (check_signature v f p).1 =
      [Event.log LogLevel.error
        (if v = 0x00 ∧ f = 0x01 ∧ p = 0x02 then lock_bits_msg
         else if v = 0x00 ∨ v = 0xFF then locked_or_not_ready_msg
         else erased_msg)] := by
  unfold check_signature at h ⊢
  split_ifs with h1 h2 h3 <;> simp_all

theorem get_device_info_none_logs (table : List (String × DeviceInfo))
    (sig : String) (h : (get_device_info table sig).2 = none) :
    Event.log LogLevel.defaultLvl not_found_msg ∈
      (get_device_info table sig).1 := by
  induction table with
  | nil => simp [get_device_info]
  | cons hd tl ih =>
    rcases hd with ⟨k, i⟩
    by_cases hk : k = sig
    · simp [get_device_info, hk] at h
    · simp only [get_device_info, if_neg hk] at h ⊢
      exact ih h

/-- C5: `process` raises exactly when one of the three 1-byte receives
returns `None`; every other failure is reported through the logger and
yields a `None` return without raising: a rejected signature logs the
error message of the classification branch taken (locked with lock bits,
locked-or-not-ready, or erased), and an accepted signature absent from the
table logs "Device ID not found.". -/
theorem C5_raise_iff_missing_response (table : List (String × DeviceInfo))
    (r : SpiResponses) :
    ((∃ e, (process table r).2 = Except.error e) ↔
      r.vendorResp = none ∨ r.familyResp = none ∨ r.partResp = none)
    ∧ (∀ v f p, r.vendorResp = some v → r.familyResp = some f →
        r.partResp = some p →
        (((check_signature v f p).2 = false →
            (process table r).2 = Except.ok none ∧
            Event.log LogLevel.error
              (if v = 0x00 ∧ f = 0x01 ∧ p = 0x02 then lock_bits_msg
               else if v = 0x00 ∨ v = 0xFF then locked_or_not_ready_msg
               else erased_msg) ∈ (process table r).1)
         ∧ ((check_signature v f p).2 = true →
            (get_device_info table (bytesHexLower [v, f, p])).2 = none →
            (process table r).2 = Except.ok none ∧
            Event.log LogLevel.defaultLvl not_found_msg ∈
              (process table r).1))) := by
  rcases r with ⟨(_|v), (_|f), (_|p)⟩
  all_goals try
    (refine ⟨iff_of_true ⟨no_resp_msg, rfl⟩ (by simp), ?_⟩
     intro v2 f2 p2 hv hf hp
     first
     | exact Option.noConfusion hv
     | exact Option.noConfusion hf
     | exact Option.noConfusion hp)
  constructor
  · apply iff_of_false
    · rintro ⟨e, he⟩
      rw [process_some_eq] at he
      by_cases h : (check_signature v f p).2 = true <;> simp [h] at he
    · simp
  · intro v2 f2 p2 hv hf hp
    simp only [Option.some.injEq] at hv hf hp
    subst hv hf hp
    constructor
    · intro hfalse
      refine ⟨by rw [process_some_eq]; simp [hfalse], ?_⟩
      have htr : (process table ⟨some v, some f, some p⟩).1 =
          mainTrace v f p ++ (check_signature v f p).1 := by
        rw [process_some_trace, if_neg (by simp [hfalse])]
        simp
      rw [htr, check_signature_false_log v f p hfalse]
      exact List.mem_append.mpr (Or.inr (List.mem_singleton.mpr rfl))
    · intro htrue hnone
      refine ⟨by rw [process_some_eq]; simp [htrue, hnone], ?_⟩
      rw [process_some_trace]
      simp only [htrue, if_true]
      exact List.mem_append.mpr
        (Or.inr (get_device_info_none_logs table _ hnone))

theorem C5_raise_iff_missing_response_witness :
    (process [] ⟨some 0x00, some 0x05, some 0x06⟩).2 = Except.ok none ∧
    Event.log LogLevel.error locked_or_not_ready_msg ∈
      (process [] ⟨some 0x00, some 0x05, some 0x06⟩).1 :=
  ((C5_raise_iff_missing_response [] ⟨some 0x00, some 0x05, some 0x06⟩).2
    0x00 0x05 0x06 rfl rfl rfl).1 (by decide)

/-- C8: when a receive returns `None`, `process` raises before any later
step: the remaining read-signature requests are never transmitted, the
reset GPIO is never driven high, and the last (and only) write to the reset
line in the trace is the initial low. -/
theorem C8_missing_response_leaves_reset_low
    (table : List (String × DeviceInfo)) (r : SpiResponses)
    (h : r.vendorResp = none ∨ r.familyResp = none ∨ r.partResp = none) :
    (∃ e, (process table r).2 = Except.error e)
    ∧ Event.gpioWrite 1 ∉ (process table r).1
    ∧ gpioWrites (process table r).1 = [0]
    ∧ (r.vendorResp = none →
        Event.transmit (read_device_id_base_cmd ++ [0x01]) ∉
          (process table r).1
        ∧ Event.transmit (read_device_id_base_cmd ++ [0x02]) ∉
          (process table r).1)
    ∧ (r.familyResp = none →
        Event.transmit (read_device_id_base_cmd ++ [0x02]) ∉
          (process table r).1) := by
  rcases r with ⟨(_|v), (_|f), (_|p)⟩
  all_goals first
  | (refine ⟨⟨no_resp_msg, rfl⟩, ?_, rfl, ?_, ?_⟩ <;>
      simp [process, manage_resp, read_device_id_base_cmd,
        enable_mem_access_cmd])
  | simp at h

theorem C8_missing_response_leaves_reset_low_witness :
    gpioWrites (process [] ⟨some 0x1e, none, none⟩).1 = [0] :=
  (C8_missing_response_leaves_reset_low [] ⟨some 0x1e, none, none⟩
    (Or.inr (Or.inl rfl))).2.2.1

/-- The only four SPI payloads the module ever builds (source lines 70-71,
77, 80, 85, 90). -/
def issued_commands : List (List Nat) :=
  [enable_mem_access_cmd,
   read_device_id_base_cmd ++ [0x00],
   read_device_id_base_cmd ++ [0x01],
   read_device_id_base_cmd ++ [0x02]]

/-- Modelled from the spec: the spec's non-goal rules out chip-erase
commands; the encoding (first bytes 0xAC 0x80) is the standard AVR serial
programming chip-erase instruction, which appears nowhere in this
repository's sources. -/
def chip_erase_cmd (q : List Nat) : Prop := q.take 2 = [0xac, 0x80]

/-- Modelled from the spec: flash-write commands (standard AVR serial
programming opcodes 0x40/0x48 load page, 0x4C write page), absent from this
repository's sources. -/
def flash_write_cmd (q : List Nat) : Prop :=
  q.head? = some 0x40 ∨ q.head? = some 0x48 ∨ q.head? = some 0x4c

/-- Modelled from the spec: EEPROM-write commands (standard AVR serial
programming opcodes 0xC0 write byte, 0xC2 write page), absent from this
repository's sources. -/
def eeprom_write_cmd (q : List Nat) : Prop :=
  q.head? = some 0xc0 ∨ q.head? = some 0xc2

/-- Modelled from the spec: fuse/lock-bit programming commands (standard
AVR serial programming opcodes 0xAC 0xA0/0xA4/0xA8 write fuses, 0xAC 0xE0
write lock bits), absent from this repository's sources. -/
def fuse_write_cmd (q : List Nat) : Prop :=
  q.take 2 = [0xac, 0xa0] ∨ q.take 2 = [0xac, 0xa4] ∨
  q.take 2 = [0xac, 0xa8] ∨ q.take 2 = [0xac, 0xe0]

theorem transmittedPayloads_process_sub (table : List (String × DeviceInfo))
    (r : SpiResponses) :
    ∀ q ∈ transmittedPayloads (process table r).1, q ∈ issued_commands := by
  rcases r with ⟨(_|v), (_|f), (_|p)⟩
  all_goals intro q hq
  case mk.some.some.some =>
    have hg : transmittedPayloads (if (check_signature v f p).2 then
        (get_device_info table (bytesHexLower [v, f, p])).1 else []) = [] := by
      split
      · exact transmittedPayloads_get_device_info table _
      · rfl
    rw [process_some_trace, transmittedPayloads_append,
      transmittedPayloads_append, transmittedPayloads_check_signature,
      hg] at hq
    simp [transmittedPayloads, mainTrace, issued_commands] at hq ⊢
    tauto
  all_goals
    simp [process, manage_resp, transmittedPayloads, issued_commands]
      at hq ⊢
  all_goals tauto

theorem transmittedPayloads_run_sub (table : List (String × DeviceInfo))
    (owf_serial : Bool) (spi_baudrate : Nat) (r : SpiResponses)
    (return_value : Bool) :
    ∀ q ∈ transmittedPayloads
        (run table owf_serial spi_baudrate r return_value).1,
      q ∈ issued_commands := by
  intro q hq
  cases owf_serial
  · simp [run, transmittedPayloads] at hq
  · have hs : transmittedPayloads
        (run table true spi_baudrate r return_value).1 =
        transmittedPayloads (process table r).1 := by
      rcases hd : (process table r).2 with e | d <;>
        simp [run, device_id, hd, transmittedPayloads,
          List.filterMap_append]
    rw [hs] at hq
    exact transmittedPayloads_process_sub table r q hq

/-- C7: in every run the only SPI payloads ever transmitted are the 4-byte
enable-programming command and the three read-signature commands built from
the base 0x30 0x00 with indices 0, 1, 2; in particular no chip-erase,
flash-write, EEPROM-write or fuse-programming command is ever sent. -/
theorem C7_only_identification_commands (table : List (String × DeviceInfo))
    (owf_serial : Bool) (spi_baudrate : Nat) (r : SpiResponses)
    (return_value : Bool) (q : List Nat)
    (hq : q ∈ transmittedPayloads
        (run table owf_serial spi_baudrate r return_value).1) :
    q ∈ issued_commands ∧ ¬ chip_erase_cmd q ∧ ¬ flash_write_cmd q ∧
      ¬ eeprom_write_cmd q ∧ ¬ fuse_write_cmd q := by
  have hmem := transmittedPayloads_run_sub table owf_serial spi_baudrate r
    return_value q hq
  have h4 := hmem
  simp [issued_commands, enable_mem_access_cmd, read_device_id_base_cmd]
    at h4
  refine ⟨hmem, ?_, ?_, ?_, ?_⟩ <;>
    rcases h4 with rfl | rfl | rfl | rfl <;>
    simp [chip_erase_cmd, flash_write_cmd, eeprom_write_cmd, fuse_write_cmd]

theorem C7_only_identification_commands_witness :
    (read_device_id_base_cmd ++ [0x00]) ∈ issued_commands ∧
    ¬ chip_erase_cmd (read_device_id_base_cmd ++ [0x00]) ∧
    ¬ flash_write_cmd (read_device_id_base_cmd ++ [0x00]) ∧
    ¬ eeprom_write_cmd (read_device_id_base_cmd ++ [0x00]) ∧
    ¬ fuse_write_cmd (read_device_id_base_cmd ++ [0x00]) :=
  C7_only_identification_commands [] true 1000000
    ⟨some 0x1e, some 0x95, some 0x0f⟩ true (read_device_id_base_cmd ++ [0x00])
    (by decide)

/-- C9: `run` propagates no exception of the identification sequence: an
exception is caught, logged as an error and `run` returns `None`, also when
`return_value` is `True`; and with `return_value = False`, `run` returns
`None` in every case. -/
theorem C9_run_catches_exceptions (table : List (String × DeviceInfo))
    (spi_baudrate : Nat) (r : SpiResponses) (return_value : Bool)
    (e : String)
    (herr : (device_id table spi_baudrate r).2 = Except.error e) :
    run table true spi_baudrate r return_value =
      ((device_id table spi_baudrate r).1 ++ [Event.log LogLevel.error e],
       none)
    ∧ ∀ (owf_serial : Bool) (r2 : SpiResponses),
        (run table owf_serial spi_baudrate r2 false).2 = none := by
  constructor
  · simp [run, herr]
  · intro serial r2
    cases serial
    · rfl
    · rcases hd : (device_id table spi_baudrate r2).2 with e2 | d2 <;>
        simp [run, hd]

theorem C9_run_catches_exceptions_witness :
    run [] true 1000000 ⟨none, none, none⟩ true =
      ((device_id [] 1000000 ⟨none, none, none⟩).1 ++
        [Event.log LogLevel.error no_resp_msg], none) :=
  (C9_run_catches_exceptions [] 1000000 ⟨none, none, none⟩ true no_resp_msg
    rfl).1

/-- C10: when the connection attempt leaves the serial handle unset, `run`
returns `None` immediately with an empty trace: no SPI configuration, no SPI
transaction and no GPIO operation is performed. -/
theorem C10_no_serial_returns_none (table : List (String × DeviceInfo))
    (spi_baudrate : Nat) (r : SpiResponses) (return_value : Bool) :
    run table false spi_baudrate r return_value = ([], none) := rfl

end AvrIsp
